import Mathlib

/-!
Verification development for the Artificer task-execution engine.

This file gives a shallow embedding, in Lean 4, of the parts of the
Artificer engine that the verified properties are about:

* the task table and the metadata each task carries
  (`crates/engine/src/task/mod.rs`, macro `define_tasks!`);
* the system-prompt builder (`Task::build_system_prompt`);
* the agentic loop, task switching and pipeline driver
  (`Task::execute_agentic_loop`, `Task::execute_pipeline`);
* the event emitter for tool results (`EventSender::tool_result`,
  `crates/engine/src/events/mod.rs`);
* the background-job state machine (`crates/engine/src/task/worker.rs`);
* the memory-extraction persistence filter
  (`crates/engine/src/task/background/memory_extraction.rs`);
* title sanitization (`src/services/title.rs`).

External effects (the LLM backend, the tool processes, the SQLite store)
are passed in as explicit inputs: the LLM is an oracle list of
`ResponseMessage`s consumed one per chat-completion call, tool execution
is a total function to the result string (the source converts handler
errors into plain `Error: ...` strings before they reach the loop), and
database rows are explicit lists.  Rust strings are Lean `String`s; the
byte-oriented operations (`result.len()`, `&result[..500]`) are modelled
over the UTF-8 byte length computed from the characters, with the
out-of-bounds / non-boundary panic modelled as `Option.none`.
-/

set_option maxRecDepth 100000

namespace Artificer

/-! ## JSON values (serde_json::Value, restricted to what the engine reads) -/

/-- A JSON value as produced by serde_json.  Numbers are modelled as
integers; none of the embedded code inspects a fractional numeric field. -/
inductive Json where
  | null
  | bool (b : Bool)
  | num (n : Int)
  | str (s : String)
  | arr (elems : List Json)
  | obj (fields : List (String × Json))

/-- `value["key"].as_str()`: serde indexing returns `Null` for a missing key
or a non-object receiver, and `as_str` returns `None` unless the value is a
string. -/
def Json.getStr (j : Json) (key : String) : Option String :=
  match j with
  | .obj fields =>
    match fields.lookup key with
    | some (.str s) => some s
    | _ => none
  | _ => none

/-! ## Messages and responses (`crates/engine/src/task/specialist.rs`) -/

structure FunctionCall where
  name : String
  arguments : Json

structure ToolCall where
  function : FunctionCall

structure Message where
  role : String
  content : Option String
  tool_calls : Option (List ToolCall)

structure ResponseMessage where
  role : String
  content : Option String
  tool_calls : Option (List ToolCall)

/-- `ResponseMessage::to_message`. -/
def ResponseMessage.to_message (r : ResponseMessage) : Message :=
  { role := r.role, content := r.content, tool_calls := r.tool_calls }

/-! ## Task metadata (`crates/engine/src/task/mod.rs`, `define_tasks!`) -/

inductive TaskType where
  | Singular
  | AgenticLoop
deriving DecidableEq

inductive Specialist where
  | ToolCaller
  | Reasoner
  | Quick
  | Coder
deriving DecidableEq

inductive ExecutionContext where
  | Interactive
  | Background
deriving DecidableEq

inductive Task where
  | TitleGeneration
  | Summarization
  | Translation
  | Extraction
  | MemoryExtraction
  | Router
  | Chat
  | WebResearcher
  | FileSmith
  | Summarizer
deriving DecidableEq

/-- `Task::title`. -/
def Task.title : Task → String
  | .TitleGeneration => "title_generation"
  | .Summarization => "summarization"
  | .Translation => "translation"
  | .Extraction => "extraction"
  | .MemoryExtraction => "memory_extraction"
  | .Router => "router"
  | .Chat => "chat"
  | .WebResearcher => "web_research"
  | .FileSmith => "file_smith"
  | .Summarizer => "summarizer"

/-- `Task::from_str`: the inverse string match generated by `define_tasks!`. -/
def Task.from_str (s : String) : Option Task :=
  match s with
  | "title_generation" => some .TitleGeneration
  | "summarization" => some .Summarization
  | "translation" => some .Translation
  | "extraction" => some .Extraction
  | "memory_extraction" => some .MemoryExtraction
  | "router" => some .Router
  | "chat" => some .Chat
  | "web_research" => some .WebResearcher
  | "file_smith" => some .FileSmith
  | "summarizer" => some .Summarizer
  | _ => none

/-- `Task::task_id`. -/
def Task.task_id : Task → Int
  | .TitleGeneration => 1
  | .Summarization => 1
  | .Translation => 1
  | .Extraction => 1
  | .MemoryExtraction => 1
  | .Router => 5
  | .Chat => 2
  | .WebResearcher => 6
  | .FileSmith => 8
  | .Summarizer => 7

/-- `Task::specialist`. -/
def Task.specialist : Task → Specialist
  | .TitleGeneration => .Quick
  | .Summarization => .Quick
  | .Translation => .Quick
  | .Extraction => .Quick
  | .MemoryExtraction => .Quick
  | .Router => .Reasoner
  | .Chat => .ToolCaller
  | .WebResearcher => .ToolCaller
  | .FileSmith => .ToolCaller
  | .Summarizer => .Reasoner

/-- `Task::execution_context`. -/
def Task.execution_context : Task → ExecutionContext
  | .TitleGeneration => .Background
  | .Summarization => .Background
  | .Translation => .Background
  | .Extraction => .Background
  | .MemoryExtraction => .Background
  | .Router => .Interactive
  | .Chat => .Interactive
  | .WebResearcher => .Interactive
  | .FileSmith => .Interactive
  | .Summarizer => .Interactive

/-- `Task::task_type`. -/
def Task.task_type : Task → TaskType
  | .TitleGeneration => .Singular
  | .Summarization => .Singular
  | .Translation => .Singular
  | .Extraction => .Singular
  | .MemoryExtraction => .Singular
  | .Router => .Singular
  | .Chat => .AgenticLoop
  | .WebResearcher => .AgenticLoop
  | .FileSmith => .AgenticLoop
  | .Summarizer => .Singular

/-- `Task::instructions` (the `instructions:` literals of `define_tasks!`;
Rust's backslash line continuations collapse to single spaces). -/
def Task.instructions : Task → String
  | .TitleGeneration =>
      "Generate a concise, descriptive title (3-5 words) for this conversation. Use underscores instead of spaces. Use only alphanumeric characters and underscores. Return ONLY the title with no explanation, punctuation, or quotes."
  | .Summarization =>
      "Summarize the following text concisely in 2-3 sentences. Focus on the main points and key takeaways."
  | .Translation =>
      "Translate the following text accurately while preserving tone and meaning. Maintain the original formatting and structure."
  | .Extraction =>
      "Extract and return only the requested information from the text. Be precise and concise."
  | .MemoryExtraction =>
      "Review this conversation and extract key factual information that would be useful to remember for future sessions. Focus on:\n- User preferences and settings\n- System information (OS, paths, configurations)\n- Persistent context (project names, file locations)\n- Important decisions or constraints\n\nReturn a JSON array of memories in this format:\n[\x7b\"key\": \"operating_system\", \"value\": \"Ubuntu 22.04\"\x7d,\n\x7b\"key\": \"home_directory\", \"value\": \"/home/tweenson\"\x7d]\n\nOnly extract facts that will remain true across sessions. Ignore ephemeral details."
  | .Router =>
      "You are a request router for Artificer, a local AI assistant. Your only job is to analyze the user\x27s message and decide how to handle it.\n\nYou have one tool: plan_tasks.\n\nALWAYS call plan_tasks. Never respond with plain text.\n\nROUTING RULES:\n- Casual conversation, greetings, simple factual questions → [\x7btask: \x27chat\x27, directions: \x27<original message>\x27\x7d]\n- Anything requiring web search, news, current events, research → [\x7btask: \x27web_research\x27, directions: \x27<specific search instructions>\x27\x7d]\n- Research that needs summarizing → [\x7btask: \x27web_research\x27, directions: \x27...\x27\x7d, \x7btask: \x27summarizer\x27, directions: \x27Summarize the above into a clear response\x27\x7d]\n- File operations → [\x7btask: \x27file_smith\x27, directions: \x27<specific file instructions>\x27\x7d]\n\nDIRECTIONS:\n- Write directions as specific instructions for each specialist, not a copy of the user message.\n- For web_research, be specific: \x27Search for top news headlines today and fetch 2-3 articles for full content\x27\n- For summarizer, specify the desired format and length.\n- Keep directions concise but complete."
  | .Chat =>
      "You are Artificer, a local AI assistant. You handle casual conversation and simple factual questions.\n\nYou have access to the Archivist tool to look up past conversations and user preferences when relevant.\n\nBEHAVIOR:\n- Be concise and direct. Match the length of your response to the complexity of the request.\n- A greeting gets a greeting. A simple question gets a short answer.\n- Use Archivist only when the user references past conversations or you need context.\n- Do not attempt web searches or file operations — those are handled by specialists.\n- If the user asks for something outside your scope, let them know it will be handled."
  | .WebResearcher =>
      "You are a web research specialist. You have access to Brave Search tools.\n\nBEHAVIOR:\n- Always complete the full research cycle. Search → fetch relevant articles → synthesize.\n- Never return raw search results to the user. Always read the content and summarize.\n- For news requests, use search_news first, then fetch 2-3 of the most relevant articles.\n- For general research, use search first, then fetch the most authoritative sources.\n- If the first search is not sufficient, try different search terms before giving up.\n- Return a well-organized response with sources cited at the end.\n- If content cannot be fetched, note it and move on to the next source."
  | .FileSmith =>
      "You are a file system specialist. You have access to FileSmith tools that execute on the user\x27s local device.\n\nBEHAVIOR:\n- Confirm before destructive operations (delete, overwrite) unless explicitly told not to.\n- Use file_exists before reading or modifying to avoid errors.\n- When writing code or structured content, prefer replace_text or insert_at_line over full rewrites.\n- Always report what you did with paths and results."
  | .Summarizer =>
      "You are a summarization specialist. You receive content from previous pipeline steps and synthesize it into a clear, well-organized response.\n\nBEHAVIOR:\n- Follow the directions provided about format and length.\n- Preserve important details while cutting noise.\n- Organize information logically with clear structure.\n- Cite sources when they are provided in the context.\n- Never add information not present in the provided content."

/-- `Task::available_switches` — every task in the source declares
`switches_to: []`, so the switch table is empty for all of them. -/
def Task.available_switches : Task → List Task := fun _ => []

/-- `PipelineStep` (`crates/engine/src/task/mod.rs`). -/
structure PipelineStep where
  task : String
  directions : String

/-! ## Tool schemas (`crates/shared/src/schemas/mod.rs` and the
`register_toolbelt!` macro of `crates/tools/src/macros.rs`).

The macro registers every tool under the name
`<ToolbeltType>::<tool name>` and marks every declared parameter
`required: true`. -/

inductive ToolLocation where
  | Server
  | Client
deriving DecidableEq

structure ParameterSchema where
  name : String
  type_name : String
  description : String
  required : Bool

structure ToolSchema where
  name : String
  description : String
  parameters : List ParameterSchema
  location : ToolLocation

/-- The Archivist toolbelt
(`crates/shared/src/tools/toolbelts/archivist.rs`), location Server. -/
def archivistSchemas : List ToolSchema :=
  [ { name := "Archivist::query_db",
      description := "Runs a SQL query against device-scoped views. Use device_* views for device data. Global tables (tasks, keywords) can be queried directly.",
      parameters :=
        [ { name := "query", type_name := "string", description := "SQL query string", required := true },
          { name := "params", type_name := "array", description := "Ordered parameter values for ?1, ?2, etc.", required := true } ],
      location := .Server },
    { name := "Archivist::list_tables",
      description := "Lists all tables and views in the database",
      parameters := [],
      location := .Server },
    { name := "Archivist::list_conversations",
      description := "Lists all conversations for the current device with their IDs, titles, and keywords",
      parameters := [],
      location := .Server },
    { name := "Archivist::get_conversation",
      description := "Retrieves a conversation and all messages by title for the current device",
      parameters :=
        [ { name := "title", type_name := "string", description := "Title of the conversation to retrieve", required := true } ],
      location := .Server },
    { name := "Archivist::search_by_keyword",
      description := "Search conversations by keyword for the current device",
      parameters :=
        [ { name := "keyword", type_name := "string", description := "Keyword to search for (case-insensitive)", required := true } ],
      location := .Server } ]

/-- The WebSearch toolbelt
(`crates/shared/src/tools/toolbelts/web_search.rs`), location Server. -/
def webSearchSchemas : List ToolSchema :=
  [ { name := "WebSearch::search",
      description := "Search the web for information. Returns titles, URLs, and rich snippets. Use for general queries.",
      parameters :=
        [ { name := "query", type_name := "string", description := "Search query", required := true },
          { name := "max_results", type_name := "integer", description := "Maximum number of results to return (default: 5, max: 10)", required := true } ],
      location := .Server },
    { name := "WebSearch::search_news",
      description := "Search for recent news articles on a topic. Returns articles with publish dates and descriptions. Use for news, current events, or anything time-sensitive.",
      parameters :=
        [ { name := "query", type_name := "string", description := "News search query", required := true },
          { name := "max_results", type_name := "integer", description := "Maximum number of results to return (default: 5, max: 10)", required := true } ],
      location := .Server },
    { name := "WebSearch::fetch_page",
      description := "Fetch a webpage and extract readable text content. Use after search to read full articles.",
      parameters :=
        [ { name := "url", type_name := "string", description := "URL to fetch", required := true } ],
      location := .Server } ]

/-- The Router toolbelt
(`crates/shared/src/tools/toolbelts/router.rs`), location Server. -/
def routerSchemas : List ToolSchema :=
  [ { name := "Router::plan_tasks",
      description := "Plan a pipeline of tasks to fulfill the user\x27s request",
      parameters :=
        [ { name := "steps", type_name := "array", description := "Ordered list of steps, each with \x27task\x27 (task name) and \x27directions\x27 (specific instructions for that task)", required := true } ],
      location := .Server } ]

/-- The tool-schema catalog of `crates/shared/src/tools/mod.rs`.  That file
also splices in a `toolbelts::file_smith` module, but no such module exists
in that crate (`crates/shared/src/tools/toolbelts/` holds only archivist,
examiner, router and web_search); the catalog here is the part of the list
that exists in the crate, in the source's order. -/
def toolSchemas : List ToolSchema :=
  archivistSchemas ++ webSearchSchemas ++ routerSchemas

/-- Byte-string prefix test (`str::starts_with` over UTF-8 bytes; for the
ASCII prefixes used by the catalog this coincides with the character-level
prefix test used here). -/
def strStartsWith (s p : String) : Bool :=
  p.data.isPrefixOf s.data

/-- Modelled from the spec: `get_tool_schemas_for` is called by
`Task::build_system_prompt` but is defined nowhere in the source tree;
per the spec's catalog contract (`get_tools_for(prefixes)` returns the
tools "whose registered prefix matches any given category") it filters the
schema catalog to the names starting with one of the given prefixes. -/
def get_tool_schemas_for (prefixes : List String) : List ToolSchema :=
  toolSchemas.filter (fun s => prefixes.any (fun p => strStartsWith s.name p))

/-- The prefix list `build_system_prompt` passes for each task
(`crates/engine/src/task/mod.rs`, lines 295-301). -/
def taskToolPrefixes : Task → List String
  | .Router => ["Router"]
  | .Chat => ["Archivist"]
  | .WebResearcher => ["WebSearch"]
  | .FileSmith => ["FileSmith"]
  | _ => []

/-! ## System-prompt builder (`Task::build_system_prompt`) -/

/-- One row of the memory query in `build_system_prompt`
(`SELECT key, value, memory_type, confidence FROM local_data ...`).
`confidence` is a SQLite REAL modelled as a rational. -/
structure MemoryRow where
  key : String
  value : String
  memory_type : String
  confidence : ℚ

/-- One parameter line of the tool section:
`- `name` (type, required|optional): description`. -/
def paramLine (p : ParameterSchema) : String :=
  "- `" ++ p.name ++ "` (" ++ p.type_name ++
    (if p.required then ", required" else ", optional") ++ "): " ++ p.description ++ "\n"

/-- The `# Available Tools` section that `build_system_prompt` pushes onto
its first, local `prompt` string (lines 305-323).  That local is shadowed
by `let mut prompt = base_instructions.to_string()` before any return, so
this text never reaches the function's result. -/
def toolSection (schemas : List ToolSchema) : String :=
  if schemas.isEmpty then ""
  else
    "\n\n# Available Tools\n" ++
      String.join (schemas.map (fun s =>
        "\n## " ++ s.name ++ "\n" ++ s.description ++ "\n" ++
          (if s.parameters.isEmpty then ""
           else "Parameters:\n" ++ String.join (s.parameters.map paramLine))))

/-- The `# System Information` block: only facts with confidence ≥ 0.8. -/
def factsBlock (facts : List MemoryRow) : String :=
  if facts.isEmpty then ""
  else
    "\n\n# System Information\n" ++
      String.join (facts.map (fun f =>
        if mkRat 4 5 ≤ f.confidence then "- " ++ f.key ++ ": " ++ f.value ++ "\n" else ""))

/-- The `# Current Context` block: every context entry. -/
def contextBlock (ctx : List MemoryRow) : String :=
  if ctx.isEmpty then ""
  else
    "\n# Current Context\n" ++
      String.join (ctx.map (fun c => "- " ++ c.key ++ ": " ++ c.value ++ "\n"))

/-- The `# User Preferences` block with the 0.7 phrasing threshold and the
trailing reminder sentence. -/
def preferencesBlock (prefs : List MemoryRow) : String :=
  if prefs.isEmpty then ""
  else
    "\n# User Preferences\n" ++
      String.join (prefs.map (fun p =>
        if mkRat 7 10 ≤ p.confidence then
          "- User prefers: " ++ p.value ++ " (" ++ p.key ++ ")\n"
        else
          "- User sometimes prefers: " ++ p.value ++ " (" ++ p.key ++ ")\n")) ++
      "\nNote: These are preferences, not strict rules. Adapt based on the specific request.\n"

/-- `Task::build_system_prompt`, with the memory query's result rows passed
in explicitly (the SQL filter and ordering happen in the store).  The
source first assembles `base_instructions ++ toolSection ...` into a local
`prompt`, returns bare `base_instructions` when the memory set is empty,
and otherwise rebinds `prompt` to `base_instructions` before appending the
three memory blocks — so the tool section is dropped on every path. -/
def build_system_prompt (task : Task) (memories : List MemoryRow) : String :=
  let base := task.instructions
  if memories.isEmpty then base
  else
    let facts := memories.filter (fun m => m.memory_type = "fact")
    let preferences := memories.filter (fun m => m.memory_type = "preference")
    let context := memories.filter (fun m => m.memory_type = "context")
    base ++ factsBlock facts ++ contextBlock context ++ preferencesBlock preferences

/-! ## Events (`crates/engine/src/events/mod.rs`,
`crates/shared/src/events`) -/

inductive ChatEvent where
  | TaskSwitch (fromTask toTask : String)
  | ToolCall (task tool : String) (args : Json)
  | ToolResult (task tool : String) (result : String) (truncated : Bool)
  | StreamChunk (content : String)
  | Done (conversation_id : Int)
  | Error (message : String)

/-! ## UTF-8 byte arithmetic for Rust string slicing -/

/-- `char::len_utf8`: the number of UTF-8 bytes a character occupies. -/
def charUtf8Size (c : Char) : Nat :=
  if c.val ≤ 0x7F then 1
  else if c.val ≤ 0x7FF then 2
  else if c.val ≤ 0xFFFF then 3
  else 4

/-- `str::len`: the UTF-8 byte length of a Rust string. -/
def utf8Len (s : String) : Nat :=
  (s.data.map charUtf8Size).sum

/-- The character prefix occupying exactly `n` UTF-8 bytes, when `n` is a
character boundary of the string; `none` models the panic of `&s[..n]`
when `n` is past the end or falls inside a multi-byte character. -/
def takeBytes : List Char → Nat → Option (List Char)
  | _, 0 => some []
  | [], _ + 1 => none
  | c :: cs, n + 1 =>
    if charUtf8Size c ≤ n + 1 then
      (takeBytes cs (n + 1 - charUtf8Size c)).map (fun l => c :: l)
    else none

/-- `EventSender::tool_result` (`crates/engine/src/events/mod.rs`, lines
60-74): computes the display string and the `truncated` flag that go into
the emitted `ToolResult` event.  The flag is `result.len() > 500` (byte
length), and when it is set the display string is
`format!("\x7b\x7d... (\x7b\x7d chars total)", &result[..500], result.len())`.
`none` models the panic of the byte slice `&result[..500]` when byte 500
is not a character boundary. -/
def tool_result (result : String) : Option (String × Bool) :=
  let truncated : Bool := decide (500 < utf8Len result)
  if truncated then
    match takeBytes result.data 500 with
    | none => none
    | some p =>
      some (String.mk p ++ "... (" ++ toString (utf8Len result) ++ " chars total)", true)
  else
    some (result, false)

/-! ## The agentic loop (`Task::execute_agentic_loop`,
`crates/engine/src/task/mod.rs` lines 456-555)

The LLM is an oracle list of `ResponseMessage`s, consumed one per
`specialist.execute` call; tool execution is a total function
`exec : String → Json → String` (the source turns executor and handler
errors into `Error: ...` result strings, so every non-switch tool call
yields a string).  `hasSender` is `events.is_some()`; at every call site
relevant here it coincides with the `streaming` flag.  The `List String`
accumulator records the task title of every LLM invocation performed. -/

/-- A `system`-role message with the given text. -/
def systemMsg (s : String) : Message :=
  { role := "system", content := some s, tool_calls := none }

/-- A `user`-role message with the given text. -/
def userMsg (s : String) : Message :=
  { role := "user", content := some s, tool_calls := none }

/-- An `assistant`-role message with the given text (the shape the loop
appends for every tool result). -/
def assistantMsg (s : String) : Message :=
  { role := "assistant", content := some s, tool_calls := none }

/-- The system message inserted on a task switch. -/
def switchMsg (old new : Task) : Message :=
  systemMsg ("Task switch: " ++ old.title ++ " → " ++ new.title ++
    ". Continue with the current objective.")

/-- Outcome of the `for tool_call in tool_calls` loop body of one turn. -/
inductive TurnOutcome where
  | cont (msgs : List Message) (events : List ChatEvent)
  | switch (target : Task) (msgs : List Message) (events : List ChatEvent)

/-- The body of the `for tool_call in tool_calls` loop: emits the
`ToolCall` event, intercepts `switch_task` (resolving `args["task"]` and
failing the turn on a missing or unknown name), and otherwise executes the
tool, emits `ToolResult` and appends the full result as an assistant
message. -/
def processToolCalls (task : Task) (exec : String → Json → String) (hasSender : Bool) :
    List ToolCall → List Message → List ChatEvent → Except String TurnOutcome
  | [], msgs, ev => .ok (.cont msgs ev)
  | tc :: rest, msgs, ev =>
    let name := tc.function.name
    let args := tc.function.arguments
    let ev := if hasSender then ev ++ [ChatEvent.ToolCall task.title name args] else ev
    if name = "switch_task" then
      match args.getStr "task" with
      | none => .error "Missing task name"
      | some tname =>
        match Task.from_str tname with
        | none => .error ("Unknown task: " ++ tname)
        | some target =>
          let ev := if hasSender then ev ++ [ChatEvent.TaskSwitch task.title target.title] else ev
          let msgs := msgs ++ [switchMsg task target]
          .ok (.switch target msgs ev)
    else
      let result := exec name args
      if hasSender then
        match tool_result result with
        | none => .error "byte index 500 is not a char boundary"
        | some disp =>
          processToolCalls task exec hasSender rest
            (msgs ++ [assistantMsg result])
            (ev ++ [ChatEvent.ToolResult task.title name disp.1 disp.2])
      else
        processToolCalls task exec hasSender rest (msgs ++ [assistantMsg result]) ev

/-- `Task::execute` with `Task::execute_agentic_loop` inlined: a Singular
task performs one LLM call and returns the response; an AgenticLoop task
appends the response, processes its tool calls (a `switch_task` intercept
tail-calls the target task with the accumulated messages), and loops until
a response has no tool calls.  Returns the terminal response, the
remaining oracle, the event log, and the titles of the tasks invoked,
one per LLM call.  An exhausted oracle is an LLM transport error. -/
def executeTask (exec : String → Json → String) :
    List ResponseMessage → Task → List Message → Bool → List ChatEvent → List String →
    Except String (ResponseMessage × List ResponseMessage × List ChatEvent × List String)
  | [], _, _, _, _, _ => .error "no LLM response"
  | r :: oracle, task, msgs, hasSender, ev, calls =>
    let calls := calls ++ [task.title]
    match task.task_type with
    | .Singular => .ok (r, oracle, ev, calls)
    | .AgenticLoop =>
      let msgs := msgs ++ [r.to_message]
      match r.tool_calls with
      | none => .ok (r, oracle, ev, calls)
      | some tcs =>
        match processToolCalls task exec hasSender tcs msgs ev with
        | .error e => .error e
        | .ok (.cont msgs' ev') => executeTask exec oracle task msgs' hasSender ev' calls
        | .ok (.switch target msgs' ev') => executeTask exec oracle target msgs' hasSender ev' calls

/-- `Task::execute_with_prompt`: prepends the system prompt built by
`build_system_prompt` to the user messages and executes the task. -/
def execute_with_prompt (exec : String → Json → String) (task : Task)
    (memories : List MemoryRow) (userMessages : List Message)
    (oracle : List ResponseMessage) (hasSender : Bool) (ev : List ChatEvent) :
    Except String (ResponseMessage × List ResponseMessage × List ChatEvent × List String) :=
  executeTask exec oracle task
    (systemMsg (build_system_prompt task memories) :: userMessages) hasSender ev []

/-- `Task::execute_pipeline` (`crates/engine/src/task/mod.rs` lines
556-600): runs the steps in order, threading each step's terminal content
into the next step's user message, and returns an assistant message whose
content is the final accumulator.  `memories` gives, per task, the rows
its system-prompt memory query returns. -/
def execute_pipeline (exec : String → Json → String) (memories : Task → List MemoryRow)
    (hasSender : Bool) :
    List PipelineStep → String → List ResponseMessage → List ChatEvent →
    Except String (ResponseMessage × List ResponseMessage × List ChatEvent)
  | [], context, oracle, ev =>
    .ok (⟨"assistant", some context, none⟩, oracle, ev)
  | step :: rest, context, oracle, ev =>
    match Task.from_str step.task with
    | none => .error ("Unknown task in pipeline: " ++ step.task)
    | some task =>
      let ev := if hasSender then ev ++ [ChatEvent.TaskSwitch "pipeline" task.title] else ev
      let userContent :=
        if context = "" then step.directions
        else step.directions ++ "\n\n# Context from previous step:\n" ++ context
      match execute_with_prompt exec task (memories task) [userMsg userContent]
          oracle hasSender ev with
      | .error e => .error e
      | .ok (resp, oracle', ev', _) =>
        execute_pipeline exec memories hasSender rest (resp.content.getD "") oracle' ev'

/-- `handle_chat_standard` (`crates/engine/src/api/handlers.rs` lines
33-95), reduced to its orchestration: it builds the single user message
from the raw request message and executes `Task::Chat` through
`execute_with_prompt` with `streaming = false` and no event sender —
no Router invocation and no pipeline.  Conversation persistence is an
external store effect and is omitted.  Returns the response and the list
of task titles invoked on the LLM. -/
def handle_chat_standard (exec : String → Json → String) (memories : List MemoryRow)
    (message : String) (oracle : List ResponseMessage) :
    Except String (ResponseMessage × List String) :=
  match execute_with_prompt exec Task.Chat memories [userMsg message] oracle false [] with
  | .error e => .error e
  | .ok (resp, _, _, calls) => .ok (resp, calls)

/-! ## Background jobs (`crates/engine/src/task/worker.rs` and the
`background` table of `crates/shared/src/db/schema.rs`) -/

inductive JobStatus where
  | pending
  | running
  | completed
  | failed
deriving DecidableEq

/-- One row of the `background` table. -/
structure Job where
  id : Int
  device_id : Int
  method : String
  arguments : String
  priority : Int
  status : JobStatus
  created_at : Int
  started_at : Option Int
  completed_at : Option Int
  result : Option String
  retries : Int
  max_retries : Int
deriving DecidableEq

/-- `Db::create_job` (`crates/shared/src/db/mod.rs`): inserts with
`status = 'pending'`; the schema defaults supply `retries = 0`,
`max_retries = 3`, and NULL `started_at`, `completed_at`, `result`. -/
def create_job (id device_id : Int) (method arguments : String) (priority : Int)
    (now : Int) : Job :=
  { id := id, device_id := device_id, method := method, arguments := arguments,
    priority := priority, status := .pending, created_at := now,
    started_at := none, completed_at := none, result := none,
    retries := 0, max_retries := 3 }

/-- `Worker::mark_job_running`. -/
def mark_job_running (j : Job) (now : Int) : Job :=
  { j with status := .running, started_at := some now }

/-- `Worker::mark_job_complete`. -/
def mark_job_complete (j : Job) (now : Int) (result : String) : Job :=
  { j with status := .completed, completed_at := some now, result := some result }

/-- `Worker::mark_job_failed` (lines 185-204): reads
`(retries, max_retries)`, computes `new_retries = retries + 1` and
`exhausted = new_retries >= max_retries`, and updates only `status`,
`retries` and `result`.  Returns the updated row with the `exhausted`
flag the worker uses for the title-generation fallback. -/
def mark_job_failed (j : Job) (error : String) : Job × Bool :=
  let new_retries := j.retries + 1
  let exhausted : Bool := decide (j.max_retries ≤ new_retries)
  let j' : Job :=
    { j with status := if exhausted then .failed else .pending,
             retries := new_retries, result := some error }
  (j', exhausted)

/-- The job states reachable through the worker: creation via
`Db::create_job` followed by any sequence of the three `Worker::mark_*`
updates (no other statement in the engine writes `background.status`). -/
inductive JobReachable : Job → Prop
  | created (id device_id : Int) (method arguments : String) (priority now : Int) :
      JobReachable (create_job id device_id method arguments priority now)
  | ran (j : Job) (now : Int) : JobReachable j → JobReachable (mark_job_running j now)
  | completedStep (j : Job) (now : Int) (result : String) :
      JobReachable j → JobReachable (mark_job_complete j now result)
  | failedStep (j : Job) (error : String) :
      JobReachable j → JobReachable (mark_job_failed j error).1

/-! ## Memory extraction persistence
(`crates/engine/src/task/background/memory_extraction.rs` lines 139-176) -/

/-- One element of the `memories` array the extraction LLM returns
(struct `ExtractedMemory`).  `confidence` is an f64 modelled as a
rational; no rounding is involved in the code under verification, which
only stores the value. -/
structure ExtractedMemory where
  key : String
  value : String
  memory_type : String
  confidence : ℚ
deriving DecidableEq

/-- One persisted memory row as written by the extraction handler's
INSERT ... ON CONFLICT DO UPDATE. -/
structure LocalDataRow where
  device_id : Int
  task_id : Int
  conversation_id : Int
  key : String
  value : String
  memory_type : String
  confidence : ℚ
  created_at : Int
  updated_at : Int
  last_accessed : Int
deriving DecidableEq

/-- `is_general_memory`. -/
def is_general_memory (key : String) : Bool :=
  key = "operating_system" || key = "home_directory" || key = "user_name" ||
    key = "timezone" || key = "shell" || key = "editor"

/-- The `for memory in &extraction.memories` persistence loop of
`memory_extraction::execute`: skips memories with an empty key or value,
skips memories whose `memory_type` is not one of fact/preference/context,
and inserts the rest verbatim — the `confidence` field is stored exactly
as the LLM returned it, with no range check here and none in the schema
(`local_data.confidence REAL NOT NULL DEFAULT 1.0` carries no CHECK). -/
def memory_extraction_rows (mems : List ExtractedMemory)
    (device_id conversation_id now : Int) : List LocalDataRow :=
  mems.filterMap (fun m =>
    if m.key = "" ∨ m.value = "" then none
    else if m.memory_type = "fact" ∨ m.memory_type = "preference" ∨ m.memory_type = "context" then
      some { device_id := device_id,
             task_id := if is_general_memory m.key then 1 else 2,
             conversation_id := conversation_id,
             key := m.key, value := m.value, memory_type := m.memory_type,
             confidence := m.confidence,
             created_at := now, updated_at := now, last_accessed := now }
    else none)

/-! ## Title sanitization (`src/services/title.rs`, `Title::sanitize_title`) -/

/-- The character class kept by sanitization:
`'a'..='z' | 'A'..='Z' | '0'..='9'`. -/
def isAlnumChar (c : Char) : Bool :=
  (('a' ≤ c) && (c ≤ 'z')) || (('A' ≤ c) && (c ≤ 'Z')) || (('0' ≤ c) && (c ≤ '9'))

/-- The per-character map of `sanitize_title`: alphanumerics are kept, the
listed separator characters map to `'_'`, and so does everything else. -/
def sanitizeChar (c : Char) : Char :=
  if isAlnumChar c then c
  else if c = ' ' ∨ c = '-' ∨ c = '.' ∨ c = '/' ∨ c = '\\' then '_'
  else '_'

/-- `str::split('_')` on a character list, computed structurally: returns
the first segment and the remaining segments (so the full split is
`fst :: snd`, never empty, and empty segments are preserved exactly as
Rust's `split` yields them). -/
def splitU1 : List Char → List Char × List (List Char)
  | [] => ([], [])
  | c :: cs =>
    let r := splitU1 cs
    if c = '_' then ([], r.1 :: r.2) else (c :: r.1, r.2)

/-- The full segment list of `str::split('_')`. -/
def splitU (l : List Char) : List (List Char) :=
  (splitU1 l).1 :: (splitU1 l).2

/-- `Vec::join("_")` on character lists. -/
def joinU : List (List Char) → List Char
  | [] => []
  | [p] => p
  | p :: q :: ps => p ++ '_' :: joinU (q :: ps)

/-- `Title::sanitize_title` (lines 14-26): map every character through
`sanitizeChar`, split on `'_'`, drop empty segments, and join the rest
with `'_'`. -/
def sanitize_title (title : String) : String :=
  String.mk (joinU (((splitU (title.data.map sanitizeChar)).filter (fun p => !p.isEmpty))))


/-! ## Concrete inputs used by the theorems below -/

/-- A tool-calling turn: the LLM answers with one `Archivist::list_tables`
call and no content. -/
def c2ToolResp : ResponseMessage :=
  ⟨"assistant", none, some [⟨⟨"Archivist::list_tables", Json.obj []⟩⟩]⟩

/-- The terminal turn: content and no tool calls. -/
def c2Final : ResponseMessage := ⟨"assistant", some "done", none⟩

/-- An LLM trace with tool calls on 17 consecutive turns. -/
def c2Oracle : List ResponseMessage := List.replicate 17 c2ToolResp ++ [c2Final]

/-- The events of one tool-calling turn under this trace. -/
def c2TurnEvents : List ChatEvent :=
  [ChatEvent.ToolCall "chat" "Archivist::list_tables" (Json.obj []),
   ChatEvent.ToolResult "chat" "Archivist::list_tables" "ok" false]

/-- The single memory row used to exercise the non-empty-memory path of
`build_system_prompt`. -/
def c3Row : MemoryRow := ⟨"os", "linux", "fact", 1⟩

/-- 499 ASCII bytes followed by two three-byte characters: byte 500 falls
inside the first `€`. -/
def c10Input : String := String.mk (List.replicate 499 'a' ++ ['€', '€'])

/-- Exactly 500 ASCII bytes. -/
def fiveHundredAs : String := String.mk (List.replicate 500 'a')

/-- Exactly 501 ASCII bytes. -/
def fiveOhOneAs : String := String.mk (List.replicate 501 'a')

/-- A `switch_task` tool call targeting `web_research`. -/
def c5SwitchCall : ToolCall :=
  ⟨⟨"switch_task", Json.obj [("task", Json.str "web_research")]⟩⟩

/-- A second tool call in the same turn, which the intercept must skip. -/
def c5OtherCall : ToolCall := ⟨⟨"Archivist::list_tables", Json.obj []⟩⟩

/-- The turn whose first tool call is the task switch. -/
def c5Resp : ResponseMessage := ⟨"assistant", none, some [c5SwitchCall, c5OtherCall]⟩

/-- A freshly created title-generation job. -/
def witnessJob0 : Job := create_job 1 2 "title_generation" "[]" 0 100

/-- The job after three consecutive handler failures. -/
def witnessJob3 : Job :=
  (mark_job_failed (mark_job_failed (mark_job_failed witnessJob0 "boom").1 "boom").1 "boom").1

/-- An extraction result with a valid kind and in-range confidence. -/
def c8Mem : ExtractedMemory := ⟨"shell", "zsh", "preference", mkRat 9 10⟩

/-- The row the persistence loop writes for `c8Mem` (the key `shell` is on
the general-memory whitelist, so `task_id = 1`). -/
def c8Row : LocalDataRow :=
  ⟨1, 1, 7, "shell", "zsh", "preference", mkRat 9 10, 0, 0, 0⟩

/-- A non-switch tool call used to exercise one loop step. -/
def c4Call : ToolCall := ⟨⟨"WebSearch::search", Json.obj []⟩⟩

/-- The display text `tool_result` emits for a 501-byte ASCII result. -/
def c4Disp : String := String.mk (List.replicate 500 'a') ++ "... (501 chars total)"

/-- The terminal turn after the witnessed task switch. -/
def c5Done : ResponseMessage := ⟨"assistant", some "ready", none⟩

/-! ## C1: the chat entry point and the Router -/

/-- C1: refuted on the code.  The claim says every chat request first runs
the Router task on the raw user message and then executes the pipeline
parsed from the Router's first tool call (falling back to a single chat
step).  `handle_chat_standard` does neither: for the request message
`"hi"` and an LLM answering `"hello"` with no tool calls, the handler's
single LLM invocation runs the `chat` task directly — the recorded
invocation list is `["chat"]`, which contains no `"router"` entry, and
`Task::execute_pipeline` is never entered. -/
theorem chat_handler_never_runs_router :
    handle_chat_standard (fun _ _ => "") [] "hi" [⟨"assistant", some "hello", none⟩] =
        Except.ok (⟨"assistant", some "hello", none⟩, ["chat"])
    ∧ (["chat"] : List String).contains "router" = false
    ∧ Task.Router.title = "router" ∧ Task.Chat.title = "chat" :=
  ⟨rfl, rfl, rfl, rfl⟩

/-! ## C2: no iteration bound in the agentic loop -/

/-- C2: refuted on the code.  The claim says the loop enforces a
configurable safety bound (default 16) on its iterations and, past it,
returns the last response with an error annotation.
`execute_agentic_loop` contains no bound: on a trace with tool calls on
17 consecutive turns it performs all 18 LLM invocations (more than the
claimed bound) and returns the 18th response unchanged and without any
error annotation. -/
theorem agentic_loop_lacks_iteration_bound :
    executeTask (fun _ _ => "ok") c2Oracle Task.Chat [] true [] [] =
        Except.ok (c2Final, [], (List.replicate 17 c2TurnEvents).flatten, List.replicate 18 "chat")
    ∧ (List.replicate 18 "chat").length = 18 ∧ 16 < 18 :=
  ⟨rfl, rfl, by decide⟩

/-! ## C3: the tool section never reaches the system prompt -/

/-- C3: refuted on the code.  The claim says that for every tool-exposing
task the returned prompt contains, after the instructions, a section
enumerating the exposed tools, both with and without stored memories.
`build_system_prompt` assembles that section into a local that is
shadowed before every return: for `chat` (which exposes the five
Archivist tools) the empty-memory result is exactly the bare
instructions, the non-empty-memory result is exactly instructions plus
memory blocks, and both are strictly shorter than any string that begins
with the instructions followed by the (non-empty) tool section. -/
theorem build_system_prompt_drops_tool_section :
    build_system_prompt Task.Chat [] = Task.Chat.instructions
    ∧ (get_tool_schemas_for (taskToolPrefixes Task.Chat)).length = 5
    ∧ (build_system_prompt Task.Chat []).length <
        (Task.Chat.instructions ++ toolSection (get_tool_schemas_for (taskToolPrefixes Task.Chat))).length
    ∧ build_system_prompt Task.Chat [c3Row] =
        Task.Chat.instructions ++ "\n\n# System Information\n- os: linux\n"
    ∧ (build_system_prompt Task.Chat [c3Row]).length <
        (Task.Chat.instructions ++ toolSection (get_tool_schemas_for (taskToolPrefixes Task.Chat))).length :=
  ⟨rfl, rfl, by decide, rfl, by decide⟩

/-! ## C7: the pipeline driver on an empty step list -/

/-- C7 counterexample: the claim says the driver invoked with an empty
`steps` list must return an error; instead `execute_pipeline` on `[]`
returns a successful `ResponseMessage` (role `assistant`, content the
empty accumulator). -/
theorem empty_pipeline_returns_ok :
    execute_pipeline (fun _ _ => "") (fun _ => []) false [] "" [] [] =
      Except.ok (⟨"assistant", some "", none⟩, [], []) := rfl

/-- C7 amended: invoked with an empty steps list, the pipeline driver
returns a successful `ResponseMessage` with role `assistant` and content
`Some("")` (the untouched accumulator) — not an error. -/
theorem empty_pipeline_result (exec : String → Json → String)
    (memories : Task → List MemoryRow) (hasSender : Bool)
    (oracle : List ResponseMessage) (ev : List ChatEvent) :
    execute_pipeline exec memories hasSender [] "" oracle ev =
      Except.ok (⟨"assistant", some "", none⟩, oracle, ev) := rfl

/-! ## C10: the byte slice in `tool_result` can panic -/

/-- C10: refuted on the code.  The claim says `EventSender::tool_result`
completes for every result string.  Its truncation branch slices
`&result[..500]` by bytes; on a 505-byte string whose byte 500 falls
inside a multi-byte character the slice panics, modelled here by the
display computation returning `none`. -/
theorem tool_result_hits_non_boundary :
    500 < utf8Len c10Input ∧ tool_result c10Input = none :=
  ⟨by decide, rfl⟩

/-! ## C4: the truncation flag and display text of `ToolResult` -/

/-- C4 counterexample: the claim's "truncated flag set iff the result was
≥ 500 characters" fails at length exactly 500 — the string is ≥ 500
characters (and bytes) long, yet the emitted flag is `false`, because the
code tests `result.len() > 500`. -/
theorem truncated_flag_false_at_500 :
    500 ≤ utf8Len fiveHundredAs ∧ tool_result fiveHundredAs = some (fiveHundredAs, false) :=
  ⟨by decide, rfl⟩

/-! ## C8: persisted memory rows -/

/-- C8 counterexample: an extraction result carrying `confidence = 3/2`
(outside the claimed `[0, 1]` range) with a valid kind is persisted
verbatim — neither the handler nor the schema checks the range. -/
theorem memory_confidence_unchecked :
    (memory_extraction_rows [⟨"favorite_color", "blue", "fact", mkRat 3 2⟩] 1 7 0).map
        LocalDataRow.confidence = [mkRat 3 2]
    ∧ (1 : ℚ) < mkRat 3 2 :=
  ⟨rfl, by decide⟩

/-- C4 amended: for every tool result emitted as a `ToolResult` event, the
`truncated` flag is set iff the result string was strictly longer than
500 bytes — in particular length exactly 500 gives `truncated = false`
and length 501 gives `truncated = true` — and when truncated the emitted
text is the 500-byte prefix plus a length summary, while the message the
loop appends for the model carries the full untruncated result. -/
theorem tool_result_truncation_contract (s disp : String) (b : Bool) (task : Task)
    (exec : String → Json → String) (tc : ToolCall) (more : List ToolCall)
    (msgs : List Message) (ev : List ChatEvent)
    (hname : tc.function.name ≠ "switch_task")
    (hexec : exec tc.function.name tc.function.arguments = s)
    (hdisp : tool_result s = some (disp, b)) :
    (b = true ↔ 500 < utf8Len s)
    ∧ (utf8Len s = 500 → b = false)
    ∧ (utf8Len s = 501 → b = true)
    ∧ (b = true → ∃ p, takeBytes s.data 500 = some p ∧
        disp = String.mk p ++ "... (" ++ toString (utf8Len s) ++ " chars total)")
    ∧ processToolCalls task exec true (tc :: more) msgs ev =
        processToolCalls task exec true more (msgs ++ [assistantMsg s])
          (ev ++ [ChatEvent.ToolCall task.title tc.function.name tc.function.arguments,
                  ChatEvent.ToolResult task.title tc.function.name disp b]) := by
  have hstep : processToolCalls task exec true (tc :: more) msgs ev =
      processToolCalls task exec true more (msgs ++ [assistantMsg s])
        (ev ++ [ChatEvent.ToolCall task.title tc.function.name tc.function.arguments,
                ChatEvent.ToolResult task.title tc.function.name disp b]) := by
    simp [processToolCalls, hname, hexec, hdisp, List.append_assoc]
  cases hl : decide (500 < utf8Len s) with
  | false =>
    have hlen : ¬ 500 < utf8Len s := of_decide_eq_false hl
    have hsome : some (s, false) = some (disp, b) := by
      rw [← hdisp]; simp [tool_result, hl]
    have hpair : (s, false) = (disp, b) := Option.some.inj hsome
    have hdeq : disp = s := (congrArg Prod.fst hpair).symm
    have hb : b = false := (congrArg Prod.snd hpair).symm
    refine ⟨?_, fun _ => hb, ?_, ?_, hstep⟩
    · rw [hb]; simp [hlen]
    · intro h501; exact absurd (h501 ▸ (by decide : (500:ℕ) < 501)) hlen
    · intro hbt; rw [hb] at hbt; cases hbt
  | true =>
    have hlen : 500 < utf8Len s := of_decide_eq_true hl
    cases htb : takeBytes s.data 500 with
    | none => simp [tool_result, hl, htb] at hdisp
    | some p =>
      have hsome :
          some (String.mk p ++ "... (" ++ toString (utf8Len s) ++ " chars total)", true) =
            some (disp, b) := by
        rw [← hdisp]; simp [tool_result, hl, htb]
      have hpair := Option.some.inj hsome
      have hdeq : disp = String.mk p ++ "... (" ++ toString (utf8Len s) ++ " chars total)" :=
        (congrArg Prod.fst hpair).symm
      have hb : b = true := (congrArg Prod.snd hpair).symm
      refine ⟨?_, ?_, fun _ => hb, ?_, hstep⟩
      · simp [hb, hlen]
      · intro h500; rw [h500] at hlen; exact absurd hlen (by decide)
      · intro _; exact ⟨p, rfl, hdeq⟩

/-- C4 witness: the contract applied to a 501-byte ASCII result of the
`WebSearch::search` tool: the event carries the truncated display text
with `truncated = true`, and the appended model message carries the full
result. -/
theorem tool_result_truncation_contract_witness :
    c4Call.function.name ≠ "switch_task"
    ∧ tool_result fiveOhOneAs = some (c4Disp, true)
    ∧ processToolCalls Task.Chat (fun _ _ => fiveOhOneAs) true [c4Call] [] [] =
        processToolCalls Task.Chat (fun _ _ => fiveOhOneAs) true [] [assistantMsg fiveOhOneAs]
          [ChatEvent.ToolCall "chat" "WebSearch::search" (Json.obj []),
           ChatEvent.ToolResult "chat" "WebSearch::search" c4Disp true] :=
  ⟨by decide, rfl,
    (tool_result_truncation_contract fiveOhOneAs c4Disp true Task.Chat
      (fun _ _ => fiveOhOneAs) c4Call [] [] [] (by decide) rfl rfl).2.2.2.2⟩

/-! ## C5: the `switch_task` intercept -/

/-- C5: whenever the agentic loop's current turn starts with a tool call
named `switch_task`: a missing `args.task` fails the turn with the typed
error `Missing task name`; an unknown task name fails it with
`Unknown task: <name>`; and a known target makes the loop emit the
`ToolCall` and `TaskSwitch` events, append the
`Task switch: old → new. Continue with the current objective.` system
message, and tail-call the target task on the accumulated messages —
the remaining tool calls of the turn are never executed. -/
theorem switch_task_intercept (task : Task) (exec : String → Json → String)
    (tc : ToolCall) (more : List ToolCall) (msgs : List Message) (ev : List ChatEvent)
    (hname : tc.function.name = "switch_task") :
    (tc.function.arguments.getStr "task" = none →
        processToolCalls task exec true (tc :: more) msgs ev =
          Except.error "Missing task name")
    ∧ (∀ tname, tc.function.arguments.getStr "task" = some tname →
        Task.from_str tname = none →
        processToolCalls task exec true (tc :: more) msgs ev =
          Except.error ("Unknown task: " ++ tname))
    ∧ (∀ tname target, tc.function.arguments.getStr "task" = some tname →
        Task.from_str tname = some target →
        processToolCalls task exec true (tc :: more) msgs ev =
          Except.ok (TurnOutcome.switch target (msgs ++ [switchMsg task target])
            (ev ++ [ChatEvent.ToolCall task.title "switch_task" tc.function.arguments,
                    ChatEvent.TaskSwitch task.title target.title])))
    ∧ (∀ (r : ResponseMessage) (tcs : List ToolCall) (oracle : List ResponseMessage)
        (calls : List String) (target : Task) (msgs' : List Message) (ev' : List ChatEvent),
        task.task_type = TaskType.AgenticLoop →
        r.tool_calls = some tcs →
        processToolCalls task exec true tcs (msgs ++ [r.to_message]) ev =
          Except.ok (TurnOutcome.switch target msgs' ev') →
        executeTask exec (r :: oracle) task msgs true ev calls =
          executeTask exec oracle target msgs' true ev' (calls ++ [task.title])) := by
  refine ⟨fun hnone => ?_, fun tname hsome hunk => ?_, fun tname target hsome htgt => ?_,
    fun r tcs oracle calls target msgs' ev' htype htc hproc => ?_⟩
  · simp [processToolCalls, hname, hnone]
  · simp [processToolCalls, hname, hsome, hunk]
  · simp [processToolCalls, hname, hsome, htgt, List.append_assoc]
  · simp [executeTask, htype, htc, hproc]

/-- C5 witness: a chat turn whose first tool call switches to
`web_research` (with a second tool call pending): the loop emits the two
events, inserts the switch system message, and continues as
`web_research` on the accumulated messages without touching the second
call. -/
theorem switch_task_intercept_witness :
    Task.Chat.task_type = TaskType.AgenticLoop
    ∧ c5Resp.tool_calls = some [c5SwitchCall, c5OtherCall]
    ∧ c5SwitchCall.function.name = "switch_task"
    ∧ c5SwitchCall.function.arguments.getStr "task" = some "web_research"
    ∧ Task.from_str "web_research" = some Task.WebResearcher
    ∧ processToolCalls Task.Chat (fun _ _ => "ok") true [c5SwitchCall, c5OtherCall]
        [c5Resp.to_message] [] =
        Except.ok (TurnOutcome.switch Task.WebResearcher
          [c5Resp.to_message, switchMsg Task.Chat Task.WebResearcher]
          [ChatEvent.ToolCall "chat" "switch_task" c5SwitchCall.function.arguments,
           ChatEvent.TaskSwitch "chat" "web_research"])
    ∧ executeTask (fun _ _ => "ok") [c5Resp, c5Done] Task.Chat [] true [] [] =
        executeTask (fun _ _ => "ok") [c5Done] Task.WebResearcher
          [c5Resp.to_message, switchMsg Task.Chat Task.WebResearcher] true
          [ChatEvent.ToolCall "chat" "switch_task" c5SwitchCall.function.arguments,
           ChatEvent.TaskSwitch "chat" "web_research"]
          ["chat"] :=
  ⟨rfl, rfl, rfl, rfl, rfl,
    (switch_task_intercept Task.Chat (fun _ _ => "ok") c5SwitchCall [c5OtherCall]
      [c5Resp.to_message] [] rfl).2.2.1 "web_research" Task.WebResearcher rfl rfl,
    (switch_task_intercept Task.Chat (fun _ _ => "ok") c5SwitchCall [c5OtherCall]
      [] [] rfl).2.2.2 c5Resp [c5SwitchCall, c5OtherCall] [c5Done] []
      Task.WebResearcher
      [c5Resp.to_message, switchMsg Task.Chat Task.WebResearcher]
      [ChatEvent.ToolCall "chat" "switch_task" c5SwitchCall.function.arguments,
       ChatEvent.TaskSwitch "chat" "web_research"]
      rfl rfl
      ((switch_task_intercept Task.Chat (fun _ _ => "ok") c5SwitchCall [c5OtherCall]
        [c5Resp.to_message] [] rfl).2.2.1 "web_research" Task.WebResearcher rfl rfl)⟩

/-! ## C6: job failure bookkeeping and the failed-status invariant -/

/-- C6: on a handler failure the worker increments `retries` by exactly 1,
stores the error text in `result`, sets the status to `failed` iff the
new retry count reaches `max_retries` (and to `pending` otherwise), and
leaves `priority`, `created_at` and `max_retries` unchanged; consequently
every job state reachable through the worker that has status `failed`
satisfies `retries ≥ max_retries`. -/
theorem job_failure_retry_invariant :
    (∀ (j : Job) (e : String),
        (mark_job_failed j e).1.retries = j.retries + 1
        ∧ (mark_job_failed j e).1.result = some e
        ∧ ((mark_job_failed j e).1.status = JobStatus.failed ↔ j.max_retries ≤ j.retries + 1)
        ∧ (mark_job_failed j e).1.priority = j.priority
        ∧ (mark_job_failed j e).1.created_at = j.created_at
        ∧ (mark_job_failed j e).1.max_retries = j.max_retries)
    ∧ (∀ j : Job, JobReachable j → j.status = JobStatus.failed →
        j.max_retries ≤ j.retries) := by
  constructor
  · intro j e
    refine ⟨rfl, rfl, ?_, rfl, rfl, rfl⟩
    by_cases h : j.max_retries ≤ j.retries + 1 <;> simp [mark_job_failed, h]
  · intro j hr
    induction hr with
    | created id device_id method arguments priority now =>
      intro h; exact absurd h (by simp [create_job])
    | ran j now _ _ => intro h; exact absurd h (by simp [mark_job_running])
    | completedStep j now result _ _ => intro h; exact absurd h (by simp [mark_job_complete])
    | failedStep j e _ _ =>
      intro h
      by_cases hex : j.max_retries ≤ j.retries + 1
      · simp [mark_job_failed, hex]
      · exact absurd h (by simp [mark_job_failed, hex])

/-- C6 witness: a job created with the schema defaults
(`retries = 0`, `max_retries = 3`) that fails three times ends with
status `failed`, and the invariant instance `max_retries ≤ retries`
holds there (`3 ≤ 3`). -/
theorem job_failure_retry_invariant_witness :
    witnessJob3.status = JobStatus.failed
    ∧ witnessJob3.max_retries ≤ witnessJob3.retries :=
  ⟨by decide,
    job_failure_retry_invariant.2 witnessJob3
      (JobReachable.failedStep _ "boom" (JobReachable.failedStep _ "boom"
        (JobReachable.failedStep _ "boom"
          (JobReachable.created 1 2 "title_generation" "[]" 0 100))))
      (by decide)⟩

/-! ## C8 amended: the persisted memory-kind invariant -/

/-- C8 amended: every memory row written by the extraction handler has
`memory_type ∈ {fact, preference, context}` (rows with other kinds, or
with an empty key or value, are skipped), and its key, value and
confidence are taken verbatim from the extraction result — in particular
the confidence is persisted without any range validation. -/
theorem memory_rows_have_valid_type (mems : List ExtractedMemory) (d c n : Int)
    (row : LocalDataRow) (h : row ∈ memory_extraction_rows mems d c n) :
    (row.memory_type = "fact" ∨ row.memory_type = "preference" ∨ row.memory_type = "context")
    ∧ ∃ m ∈ mems, row.key = m.key ∧ row.value = m.value ∧ row.confidence = m.confidence := by
  rw [memory_extraction_rows, List.mem_filterMap] at h
  obtain ⟨m, hm, hsome⟩ := h
  by_cases h1 : m.key = "" ∨ m.value = ""
  · rw [if_pos h1] at hsome; cases hsome
  · rw [if_neg h1] at hsome
    by_cases h2 : m.memory_type = "fact" ∨ m.memory_type = "preference" ∨ m.memory_type = "context"
    · rw [if_pos h2] at hsome
      have hrow := Option.some.inj hsome
      refine ⟨?_, m, hm, ?_, ?_, ?_⟩
      · rw [← hrow]; exact h2
      · rw [← hrow]
      · rw [← hrow]
      · rw [← hrow]
    · rw [if_neg h2] at hsome; cases hsome

/-- C8 witness: a well-formed `preference` extraction result is persisted
as a row whose kind is one of the three valid kinds. -/
theorem memory_rows_have_valid_type_witness :
    c8Row ∈ memory_extraction_rows [c8Mem] 1 7 0
    ∧ (c8Row.memory_type = "fact" ∨ c8Row.memory_type = "preference"
        ∨ c8Row.memory_type = "context") :=
  ⟨List.mem_singleton.mpr rfl,
    (memory_rows_have_valid_type [c8Mem] 1 7 0 c8Row (List.mem_singleton.mpr rfl)).1⟩

/-! ## C9: idempotence of title sanitization

Helper lemmas about `sanitizeChar`, `splitU1` and `joinU`. -/

/-- Both non-alphanumeric arms of the source's match map to `'_'`. -/
theorem sanitizeChar_eq (c : Char) : sanitizeChar c = if isAlnumChar c then c else '_' := by
  unfold sanitizeChar
  by_cases h : isAlnumChar c <;> simp [h]

theorem sanitizeChar_underscore : sanitizeChar '_' = '_' := by decide

theorem sanitizeChar_idem (c : Char) : sanitizeChar (sanitizeChar c) = sanitizeChar c := by
  by_cases h : isAlnumChar c
  · have h1 : sanitizeChar c = c := by rw [sanitizeChar_eq, if_pos h]
    rw [h1]; exact h1
  · have h1 : sanitizeChar c = '_' := by rw [sanitizeChar_eq, if_neg h]
    rw [h1, sanitizeChar_underscore]

/-- Every character of every segment of the split came from the input and
is not an underscore. -/
theorem splitU1_chars (l : List Char) :
    (∀ c ∈ (splitU1 l).1, c ∈ l ∧ c ≠ '_')
    ∧ (∀ p ∈ (splitU1 l).2, ∀ c ∈ p, c ∈ l ∧ c ≠ '_') := by
  induction l with
  | nil => exact ⟨by simp [splitU1], by simp [splitU1]⟩
  | cons a l ih =>
    by_cases ha : a = '_'
    · have hsp : splitU1 (a :: l) = ([], (splitU1 l).1 :: (splitU1 l).2) := by
        simp [splitU1, ha]
      constructor
      · intro c hc; rw [hsp] at hc; cases hc
      · intro p hp c hc
        rw [hsp] at hp
        rcases List.mem_cons.mp hp with h | h
        · have hx := (ih.1) c (h ▸ hc)
          exact ⟨List.mem_cons_of_mem a hx.1, hx.2⟩
        · have hx := (ih.2) p h c hc
          exact ⟨List.mem_cons_of_mem a hx.1, hx.2⟩
    · have hsp : splitU1 (a :: l) = (a :: (splitU1 l).1, (splitU1 l).2) := by
        simp [splitU1, ha]
      constructor
      · intro c hc
        rw [hsp] at hc
        rcases List.mem_cons.mp hc with h | h
        · exact ⟨h ▸ List.mem_cons_self a l, h ▸ ha⟩
        · have hx := (ih.1) c h
          exact ⟨List.mem_cons_of_mem a hx.1, hx.2⟩
      · intro p hp c hc
        rw [hsp] at hp
        have hx := (ih.2) p hp c hc
        exact ⟨List.mem_cons_of_mem a hx.1, hx.2⟩

/-- Splitting an underscore-free list yields the list as its only segment. -/
theorem splitU1_no_underscore {p : List Char} (h : '_' ∉ p) : splitU1 p = (p, []) := by
  induction p with
  | nil => rfl
  | cons c cs ih =>
    have hc : c ≠ '_' := fun hh => h (hh ▸ List.mem_cons_self c cs)
    have hcs : '_' ∉ cs := fun hh => h (List.mem_cons_of_mem c hh)
    simp [splitU1, hc, ih hcs]

/-- Splitting `p ++ '_' :: rest` with `p` underscore-free peels off `p`. -/
theorem splitU1_append {p : List Char} (h : '_' ∉ p) (rest : List Char) :
    splitU1 (p ++ '_' :: rest) = (p, (splitU1 rest).1 :: (splitU1 rest).2) := by
  induction p with
  | nil => simp [splitU1]
  | cons c cs ih =>
    have hc : c ≠ '_' := fun hh => h (hh ▸ List.mem_cons_self c cs)
    have hcs : '_' ∉ cs := fun hh => h (List.mem_cons_of_mem c hh)
    simp [splitU1, hc, ih hcs]

/-- Splitting the `'_'`-join of non-empty underscore-free segments
recovers the segments. -/
theorem splitU_joinU (parts : List (List Char))
    (hall : ∀ p ∈ parts, '_' ∉ p) (hne : parts ≠ []) :
    splitU (joinU parts) = parts := by
  induction parts with
  | nil => exact absurd rfl hne
  | cons p ps ih =>
    cases ps with
    | nil =>
      have hp : '_' ∉ p := hall p (List.mem_cons_self _ _)
      simp [joinU, splitU, splitU1_no_underscore hp]
    | cons q qs =>
      have hp : '_' ∉ p := hall p (List.mem_cons_self _ _)
      have hrest : ∀ x ∈ q :: qs, '_' ∉ x := fun x hx => hall x (List.mem_cons_of_mem p hx)
      have hih := ih hrest (by simp)
      rw [show joinU (p :: q :: qs) = p ++ '_' :: joinU (q :: qs) from rfl]
      unfold splitU at hih ⊢
      rw [splitU1_append hp]
      simpa using hih

/-- A map that fixes every element of a list fixes the list. -/
theorem map_fix_of_all {g : Char → Char} {p : List Char} (h : ∀ c ∈ p, g c = c) :
    p.map g = p := by
  induction p with
  | nil => rfl
  | cons c cs ih =>
    simp only [List.map_cons, h c (List.mem_cons_self c cs),
      ih (fun x hx => h x (List.mem_cons_of_mem c hx))]

/-- `sanitizeChar` fixes the join of segments it fixes pointwise. -/
theorem map_sanitize_joinU (parts : List (List Char))
    (hall : ∀ p ∈ parts, ∀ c ∈ p, sanitizeChar c = c) :
    (joinU parts).map sanitizeChar = joinU parts := by
  induction parts with
  | nil => rfl
  | cons p ps ih =>
    cases ps with
    | nil => exact map_fix_of_all (hall p (List.mem_cons_self _ _))
    | cons q qs =>
      rw [show joinU (p :: q :: qs) = p ++ '_' :: joinU (q :: qs) from rfl]
      rw [List.map_append, map_fix_of_all (hall p (List.mem_cons_self _ _)),
        List.map_cons, sanitizeChar_underscore,
        ih (fun x hx c hc => hall x (List.mem_cons_of_mem p hx) c hc)]

/-- Every character of every kept segment of the sanitization pipeline is
fixed by `sanitizeChar` and is not an underscore. -/
theorem sanitize_core_chars (l : List Char) :
    ∀ p ∈ (splitU (l.map sanitizeChar)).filter (fun p => !p.isEmpty),
      ∀ c ∈ p, sanitizeChar c = c ∧ c ≠ '_' := by
  intro p hp c hc
  have hp' : p ∈ splitU (l.map sanitizeChar) := List.mem_of_mem_filter hp
  unfold splitU at hp'
  have hmem : c ∈ l.map sanitizeChar ∧ c ≠ '_' := by
    rcases List.mem_cons.mp hp' with h | h
    · exact (splitU1_chars (l.map sanitizeChar)).1 c (h ▸ hc)
    · exact (splitU1_chars (l.map sanitizeChar)).2 p h c hc
  obtain ⟨d, _, hd⟩ := List.mem_map.mp hmem.1
  exact ⟨by rw [← hd, sanitizeChar_idem], hmem.2⟩

/-- C9: title sanitization is idempotent — sanitizing an already
sanitized title returns it unchanged. -/
theorem sanitize_title_idempotent (t : String) :
    sanitize_title (sanitize_title t) = sanitize_title t := by
  unfold sanitize_title
  congr 1
  have hchars := sanitize_core_chars t.data
  set parts := (splitU (t.data.map sanitizeChar)).filter (fun p => !p.isEmpty) with hparts
  have hdata : (String.mk (joinU parts)).data = joinU parts := rfl
  rw [hdata, map_sanitize_joinU parts (fun p hp c hc => (hchars p hp c hc).1)]
  rcases hp : parts with _ | ⟨p, ps⟩
  · rfl
  · have hunder : ∀ x ∈ p :: ps, '_' ∉ x := by
      intro x hx hcx
      exact (hchars x (hp ▸ hx) '_' hcx).2 rfl
    have hnonempty : ∀ x ∈ p :: ps, (!x.isEmpty) = true := by
      intro x hx
      have hx' : x ∈ parts := hp ▸ hx
      rw [hparts] at hx'
      exact (List.mem_filter.mp hx').2
    rw [splitU_joinU (p :: ps) hunder (by simp), List.filter_eq_self.mpr hnonempty]

end Artificer
